import Mathlib

/-!
Verification of the date-keyed GHI/PR reconciliation and derived-metrics
pipeline (`src/app.py`).

Dates are modelled as proleptic-Gregorian ordinals (`toOrdinal`, matching
Python's `datetime.toordinal`), so that date comparison and
`timedelta(days = n)` arithmetic are plain `Nat`/`Int` arithmetic.
Measurement values are modelled as rationals; the one place where IEEE
NaN semantics matters (the colour classification `get_color`, which in the
code receives raw `df['GHI']` cells) uses `FVal`, rationals extended with a
NaN element whose comparisons are always false, exactly as in IEEE 754.
-/

namespace DataAnalysis

/-- Gregorian leap-year test. -/
def isLeap (y : Nat) : Bool :=
  (y % 4 == 0 && y % 100 != 0) || (y % 400 == 0)

/-- Days in the months strictly before month `m` of a non-leap year. -/
def cumDays : Nat → Nat
  | 1 => 0 | 2 => 31 | 3 => 59 | 4 => 90 | 5 => 120 | 6 => 151
  | 7 => 181 | 8 => 212 | 9 => 243 | 10 => 273 | 11 => 304 | 12 => 334
  | _ => 0

/-- Proleptic Gregorian ordinal of a calendar date, with `0001-01-01 ↦ 1`,
matching Python's `datetime.toordinal` (which underlies every date
comparison and `timedelta` subtraction in `app.py`). -/
def toOrdinal (y m d : Nat) : Nat :=
  365 * (y - 1) + (y - 1) / 4 - (y - 1) / 100 + (y - 1) / 400
    + cumDays m + (if isLeap y && decide (3 ≤ m) then 1 else 0) + (d - 1) + 1

/-- A row of the reconciled table: `{'Date': date, 'GHI': ..., 'PR': ...}`
as built in `process_data`. -/
structure Row where
  date : Nat
  ghi : ℚ
  pr : ℚ
deriving DecidableEq, Repr

/-- A source index (`ghi_dict` / `pr_dict`): a Python dict from date to the
day's value, given as an association list. -/
abbrev SourceIndex := List (Nat × ℚ)

/-- `sorted(set(ks) & set(ls))` from line 63 of `app.py`: the sorted list of
dates common to both key sets (set semantics: duplicates collapsed). -/
def sortedInter (ks ls : List Nat) : List Nat :=
  List.insertionSort (· ≤ ·) ((ks.filter (fun k => ls.contains k)).dedup)

/-- The merge step of `process_data` (lines 61–69): for each date in the
sorted intersection of the two indices' key sets, emit a row with that
date's GHI and PR values. -/
def process_data (ghi_dict pr_dict : SourceIndex) : List Row :=
  (sortedInter (ghi_dict.map Prod.fst) (pr_dict.map Prod.fst)).map
    (fun d => ⟨d, ((ghi_dict.lookup d).getD 0), ((pr_dict.lookup d).getD 0)⟩)

theorem process_data_dates (g p : SourceIndex) :
    (process_data g p).map Row.date = sortedInter (g.map Prod.fst) (p.map Prod.fst) := by
  simp [process_data, Function.comp_def]

theorem mem_sortedInter {ks ls : List Nat} {d : Nat} :
    d ∈ sortedInter ks ls ↔ d ∈ ks ∧ d ∈ ls := by
  simp [sortedInter, (List.perm_insertionSort _ _).mem_iff]

theorem sortedInter_sorted_lt (ks ls : List Nat) :
    (sortedInter ks ls).Sorted (· < ·) := by
  have hs : (sortedInter ks ls).Sorted (· ≤ ·) :=
    List.sorted_insertionSort _ _
  have hnd : (sortedInter ks ls).Nodup :=
    ((List.perm_insertionSort _ _).nodup_iff).mpr (List.nodup_dedup _)
  exact hs.lt_of_le hnd

/-- Line 77–78 of `app.py`: restrict the reconciled table to the inclusive
window `[s, e]`. -/
def filterRange (rows : List Row) (s e : Nat) : List Row :=
  rows.filter (fun r => decide (s ≤ r.date) && decide (r.date ≤ e))

/-- Line 83: `df['PR'].rolling(window=30, min_periods=1).mean()`.
Entry `i` is the mean of the trailing window of up to 30 values ending at
(and including) position `i`. -/
def rollingMean30 (xs : List ℚ) : List ℚ :=
  (List.range xs.length).map (fun i =>
    let w := (xs.take (i + 1)).drop (i + 1 - 30)
    w.sum / (w.length : ℚ))

/-- One iteration of the budget loop (lines 86–90): if the date lies in
`[year-07-01, (year+1)-06-30]` overwrite the budget value with
`73.9 * 0.992 ** (year - 2019)`, else keep the previous value. -/
def budgetStep (year : Nat) (d : Nat) (v : ℚ) : ℚ :=
  if toOrdinal year 7 1 ≤ d ∧ d ≤ toOrdinal (year + 1) 6 30 then
    (739 / 10) * (992 / 1000) ^ (year - 2019)
  else v

/-- Lines 85–90: `df['Budget_PR'] = 73.9` followed by the
`for year in range(2019, 2023)` mask-assignment loop, for one row dated `d`. -/
def budget_PR (d : Nat) : ℚ :=
  (List.range' 2019 4).foldl (fun v y => budgetStep y d v) (739 / 10)

theorem budget_PR_unfold (d : Nat) :
    budget_PR d =
      budgetStep 2022 d (budgetStep 2021 d (budgetStep 2020 d (budgetStep 2019 d (739 / 10)))) :=
  rfl

/-- A raw float cell: either NaN or a real (modelled rational) value.
`df['GHI']` cells read from CSV may be NaN, and in IEEE 754 every
comparison against NaN is false. -/
inductive FVal where
  | nan : FVal
  | val : ℚ → FVal
deriving DecidableEq, Repr

/-- IEEE `<` on float cells: false whenever either side is NaN. -/
def fvLt : FVal → FVal → Bool
  | .val a, .val b => decide (a < b)
  | _, _ => false

/-- IEEE `<=` on float cells: false whenever either side is NaN. -/
def fvLe : FVal → FVal → Bool
  | .val a, .val b => decide (a ≤ b)
  | _, _ => false

/-- The four colour buckets produced by `get_color`. -/
inductive Color where
  | navy | lightblue | orange | brown
deriving DecidableEq, Repr

/-- Lines 92–100: `get_color(ghi)`; Python's chained `2 <= ghi < 4` is
`(2 <= ghi) and (ghi < 4)`. -/
def get_color (ghi : FVal) : Color :=
  if fvLt ghi (.val 2) then .navy
  else if fvLe (.val 2) ghi && fvLt ghi (.val 4) then .lightblue
  else if fvLe (.val 4) ghi && fvLt ghi (.val 6) then .orange
  else .brown

/-- Line 110: `df['Date'].max()` over the filtered table. -/
def lastDate (df : List Row) : Nat :=
  (df.map Row.date).foldl max 0

/-- Line 114: the rows whose date is strictly after
`last_date - timedelta(days=period)`. -/
def recentFilter (df : List Row) (period : Nat) : List Row :=
  df.filter (fun r => decide ((lastDate df : Int) - (period : Int) < (r.date : Int)))

/-- Line 115: `recent_data['PR'].mean() if not recent_data.empty else 0`. -/
def recentAvg (df : List Row) (period : Nat) : ℚ :=
  let recent := recentFilter df period
  if recent.isEmpty then 0 else ((recent.map Row.pr).sum) / (recent.length : ℚ)

/-- The data handed to the external renderer by `plot_pr_evolution`: the
per-row derived series and the recent-window summaries. -/
structure ChartData where
  dates : List Nat
  prs : List ℚ
  ma30 : List ℚ
  budget : List ℚ
  colors : List Color
  summaries : List (Nat × ℚ)
deriving DecidableEq, Repr

/-- Lines 75–116 of `plot_pr_evolution`: filter to `[s, e]`, raise
`ValueError` when the filtered table is empty, otherwise compute the
rolling mean, budget curve, colour buckets and 7/30/60-day summaries. -/
def plot_pr_evolution (rows : List Row) (s e : Nat) : Except String ChartData :=
  let df := filterRange rows s e
  if df.isEmpty then
    .error "No data available in the specified date range."
  else
    .ok { dates := df.map Row.date
          prs := df.map Row.pr
          ma30 := rollingMean30 (df.map Row.pr)
          budget := df.map (fun r => budget_PR r.date)
          colors := df.map (fun r => get_color (.val r.ghi))
          summaries := [7, 30, 60].map (fun p => (p, recentAvg df p)) }

/-- The observable outcome of one `main` run (lines 143–145): whether the
combined CSV got written (line 70, inside `process_data`), whether the
chart got written (line 127), and whether the run aborted with the
empty-range `ValueError` from line 81. -/
structure RunOutcome where
  csvWritten : Bool
  chartWritten : Bool
  emptyRangeAbort : Bool
deriving DecidableEq, Repr

/-- `main` (lines 143–145): `process_data` always persists the merged CSV
(line 70) before `plot_pr_evolution` runs; the empty-range `ValueError`
raised there aborts the run before any chart is saved. -/
def main_run (ghi_dict pr_dict : SourceIndex) (s e : Nat) : RunOutcome :=
  let df := process_data ghi_dict pr_dict
  match plot_pr_evolution df s e with
  | .error _ => { csvWritten := true, chartWritten := false, emptyRangeAbort := true }
  | .ok _ => { csvWritten := true, chartWritten := true, emptyRangeAbort := false }

/-- The GHI index of the end-to-end scenario: observations for
`2021-01-01 .. 2021-01-05`. -/
def exGhi : SourceIndex :=
  [(toOrdinal 2021 1 1, 1), (toOrdinal 2021 1 2, 2), (toOrdinal 2021 1 3, 3),
   (toOrdinal 2021 1 4, 4), (toOrdinal 2021 1 5, 5)]

/-- The PR index of the end-to-end scenario: observations for
`2021-01-03 .. 2021-01-07`. -/
def exPr : SourceIndex :=
  [(toOrdinal 2021 1 3, 73), (toOrdinal 2021 1 4, 74), (toOrdinal 2021 1 5, 75),
   (toOrdinal 2021 1 6, 76), (toOrdinal 2021 1 7, 77)]

/-- C1: a date appears in the reconciled table iff it has an observation in
both the GHI index and the PR index; the reconciled date sequence is
strictly increasing (hence duplicate-free); and the
`2021-01-01..05` × `2021-01-03..07` scenario yields exactly the rows for
`2021-01-03, 2021-01-04, 2021-01-05`, in that order. -/
theorem reconcile_iff_both_and_sorted :
    (∀ (g p : SourceIndex) (d : Nat),
        d ∈ (process_data g p).map Row.date ↔ d ∈ g.map Prod.fst ∧ d ∈ p.map Prod.fst)
    ∧ (∀ g p : SourceIndex, ((process_data g p).map Row.date).Sorted (· < ·))
    ∧ process_data exGhi exPr =
        [⟨toOrdinal 2021 1 3, 3, 73⟩, ⟨toOrdinal 2021 1 4, 4, 74⟩,
         ⟨toOrdinal 2021 1 5, 5, 75⟩] := by
  refine ⟨fun g p d => ?_, fun g p => ?_, by decide⟩
  · rw [process_data_dates]; exact mem_sortedInter
  · rw [process_data_dates]; exact sortedInter_sorted_lt _ _

/-- C1 witness: instantiating the membership characterization at the
scenario indices puts `2021-01-04` in the reconciled table. -/
theorem reconcile_iff_both_and_sorted_witness :
    toOrdinal 2021 1 4 ∈ (process_data exGhi exPr).map Row.date :=
  (reconcile_iff_both_and_sorted.1 exGhi exPr (toOrdinal 2021 1 4)).mpr
    ⟨by decide, by decide⟩

/-- C2: a row dated inside `[Y-07-01, (Y+1)-06-30]` (both ends inclusive),
for any `Y` in `2019..2022`, gets the budget value
`73.9 * 0.992 ^ (Y - 2019)`. -/
theorem budget_in_period (d y : Nat) (h1 : 2019 ≤ y) (h2 : y ≤ 2022)
    (h3 : toOrdinal y 7 1 ≤ d) (h4 : d ≤ toOrdinal (y + 1) 6 30) :
    budget_PR d = (739 / 10) * (992 / 1000) ^ (y - 2019) := by
  interval_cases y <;>
  · rw [budget_PR_unfold]
    norm_num [toOrdinal, cumDays, isLeap] at h3 h4
    norm_num [budgetStep, toOrdinal, cumDays, isLeap]
    split_ifs <;> first | rfl | omega

/-- C2 witness: `2020-01-01` lies in the period starting `2019-07-01` and
gets `73.9 * 0.992 ^ 0`. -/
theorem budget_in_period_witness :
    toOrdinal 2019 7 1 ≤ toOrdinal 2020 1 1
    ∧ toOrdinal 2020 1 1 ≤ toOrdinal (2019 + 1) 6 30
    ∧ budget_PR (toOrdinal 2020 1 1) = (739 / 10) * (992 / 1000) ^ (2019 - 2019) :=
  ⟨by decide, by decide,
    budget_in_period (toOrdinal 2020 1 1) 2019 (le_refl _) (by norm_num)
      (by decide) (by decide)⟩

/-- C3 counterexample: the row dated `2020-01-01` does **not** get
`73.9 * 0.992 ^ 1`: it lies in the period that starts `2019-07-01`, whose
value is `73.9 * 0.992 ^ 0 = 73.9`. -/
theorem budget_2020_01_01_ne_decayed :
    budget_PR (toOrdinal 2020 1 1) ≠ (739 / 10) * (992 / 1000) ^ 1 := by
  rw [budget_PR_unfold]
  norm_num [budgetStep, toOrdinal, cumDays, isLeap]

/-- C3 (amended): the row dated `2020-01-01` gets exactly `73.9` (it falls
in the period starting `2019-07-01`, exponent `0`), and the row dated
`2019-07-01` gets exactly `73.9`. -/
theorem budget_at_spec_dates :
    budget_PR (toOrdinal 2020 1 1) = 739 / 10
    ∧ budget_PR (toOrdinal 2019 7 1) = 739 / 10 := by
  constructor <;>
  · rw [budget_PR_unfold]
    norm_num [budgetStep, toOrdinal, cumDays, isLeap]

/-- C4 counterexample: `2023-07-01` lies after the last defined period
(`[2022-07-01, 2023-06-30]`, value `73.9 * 0.992 ^ 3`) but its budget value
is the global default `73.9`, not that period's value. -/
theorem budget_after_last_period_ne_last_value :
    budget_PR (toOrdinal 2023 7 1) = 739 / 10
    ∧ budget_PR (toOrdinal 2023 7 1) ≠ (739 / 10) * (992 / 1000) ^ 3 := by
  constructor <;>
  · rw [budget_PR_unfold]
    norm_num [budgetStep, toOrdinal, cumDays, isLeap]

/-- C4 (amended): every row not covered by any of the four defined periods
— whether before `2019-07-01` or after `2023-06-30` — gets the initial
default `73.9`; rows after the last defined period do *not* retain that
period's value. -/
theorem budget_uncovered_default (d : Nat)
    (h : d < toOrdinal 2019 7 1 ∨ toOrdinal 2023 6 30 < d) :
    budget_PR d = 739 / 10 := by
  rw [budget_PR_unfold]
  norm_num [toOrdinal, cumDays, isLeap] at h
  norm_num [budgetStep, toOrdinal, cumDays, isLeap]
  split_ifs <;> first | rfl | omega

/-- C4 witness: the day after the last defined period gets the default. -/
theorem budget_uncovered_default_witness :
    toOrdinal 2023 6 30 < toOrdinal 2023 7 1
    ∧ budget_PR (toOrdinal 2023 7 1) = 739 / 10 :=
  ⟨by decide, budget_uncovered_default (toOrdinal 2023 7 1) (Or.inr (by decide))⟩

/-- C5: at every position `i` of the rolling-mean series, the window is
the trailing `min 30 (i+1)` values ending at and including position `i`
— never empty, so the mean always has a positive divisor (never NaN) —
and the value is the arithmetic mean over that window; in-range PR values
`[10, 20, 30]` yield rolling means `[10, 15, 20]`. -/
theorem rollingMean30_spec :
    (∀ (xs : List ℚ) (i : Nat), i < xs.length →
        ((xs.take (i + 1)).drop (i + 1 - 30)).length = min 30 (i + 1)
        ∧ 0 < min 30 (i + 1)
        ∧ (rollingMean30 xs).getD i 0 =
            ((xs.take (i + 1)).drop (i + 1 - 30)).sum / ((min 30 (i + 1) : Nat) : ℚ))
    ∧ rollingMean30 [10, 20, 30] = [10, 15, 20] := by
  constructor
  · intro xs i h
    have hlen : ((xs.take (i + 1)).drop (i + 1 - 30)).length = min 30 (i + 1) := by
      simp only [List.length_drop, List.length_take]
      omega
    refine ⟨hlen, by omega, ?_⟩
    have hi : i < (rollingMean30 xs).length := by
      simpa [rollingMean30] using h
    rw [List.getD_eq_getElem _ _ hi]
    simp only [rollingMean30, List.getElem_map, List.getElem_range]
    rw [hlen]
  · norm_num [rollingMean30, List.range_succ]

/-- C5 witness: at position 1 of `[10, 20, 30]` the window has
`min 30 2 = 2` elements and the rolling mean is their arithmetic mean. -/
theorem rollingMean30_spec_witness :
    (([10, 20, 30] : List ℚ).take 2).drop 0 = [10, 20]
    ∧ (rollingMean30 [10, 20, 30]).getD 1 0 =
        ((([10, 20, 30] : List ℚ).take 2).drop 0).sum / ((min 30 2 : Nat) : ℚ) :=
  ⟨by norm_num, (rollingMean30_spec.1 [10, 20, 30] 1 (by norm_num)).2.2⟩

/-- C6: `plot_pr_evolution` fails (with the empty-range `ValueError`) iff
no reconciled row's date falls within `[s, e]` inclusive, and chart data
is produced only when some row is in range. -/
theorem plot_empty_range_iff (rows : List Row) (s e : Nat) :
    ((∃ msg, plot_pr_evolution rows s e = .error msg) ↔
      ∀ r ∈ rows, ¬(s ≤ r.date ∧ r.date ≤ e))
    ∧ (∀ c, plot_pr_evolution rows s e = .ok c →
        ∃ r ∈ rows, s ≤ r.date ∧ r.date ≤ e) := by
  have hfil : filterRange rows s e = [] ↔ ∀ r ∈ rows, ¬(s ≤ r.date ∧ r.date ≤ e) := by
    simp [filterRange, List.filter_eq_nil_iff]
  constructor
  · constructor
    · rintro ⟨msg, hmsg⟩
      rw [← hfil]
      unfold plot_pr_evolution at hmsg
      by_contra hne
      rw [if_neg (by simpa [List.isEmpty_iff] using hne)] at hmsg
      exact Except.noConfusion hmsg
    · intro hall
      refine ⟨"No data available in the specified date range.", ?_⟩
      unfold plot_pr_evolution
      rw [if_pos (by simpa [List.isEmpty_iff] using hfil.mpr hall)]
  · intro c hc
    unfold plot_pr_evolution at hc
    by_contra hno
    rw [if_pos (by simpa [List.isEmpty_iff, hfil] using fun r hr hs he => hno ⟨r, hr, hs, he⟩)] at hc
    exact Except.noConfusion hc

/-- C6 witness: a table with rows only in 2021 makes the 2022 analysis
request fail with the empty-range error. -/
theorem plot_empty_range_iff_witness :
    ∃ msg, plot_pr_evolution [⟨toOrdinal 2021 1 1, 5, 80⟩]
      (toOrdinal 2022 1 1) (toOrdinal 2022 12 31) = .error msg :=
  (plot_empty_range_iff [⟨toOrdinal 2021 1 1, 5, 80⟩]
      (toOrdinal 2022 1 1) (toOrdinal 2022 12 31)).1.mpr (by decide)

/-- C7: for each window size in `{7, 30, 60}`, the recent-window summary
averages PR over the rows dated strictly after `lastDate − window`: an
empty window yields exactly `0`, a nonempty one the arithmetic mean
(average × count = sum); and the chart's summaries are exactly these
values for the in-range rows. -/
theorem recent_window_spec :
    (∀ (df : List Row) (period : Nat), period = 7 ∨ period = 30 ∨ period = 60 →
        (recentFilter df period = [] → recentAvg df period = 0)
        ∧ (recentFilter df period ≠ [] →
            recentAvg df period * ((recentFilter df period).length : ℚ) =
              ((recentFilter df period).map Row.pr).sum))
    ∧ (∀ (rows : List Row) (s e : Nat) (c : ChartData),
        plot_pr_evolution rows s e = .ok c →
        c.summaries = [7, 30, 60].map fun p => (p, recentAvg (filterRange rows s e) p)) := by
  constructor
  · intro df period _
    constructor
    · intro h
      simp [recentAvg, h]
    · intro h
      have hne : ¬(recentFilter df period).isEmpty := by
        simpa [List.isEmpty_iff] using h
      have hlen : ((recentFilter df period).length : ℚ) ≠ 0 :=
        Nat.cast_ne_zero.mpr (List.length_pos.mpr h).ne'
      simp only [recentAvg, if_neg hne]
      rw [div_mul_cancel₀ _ hlen]
  · intro rows s e c hc
    by_cases h : (filterRange rows s e).isEmpty
    · simp [plot_pr_evolution, h] at hc
    · simp [plot_pr_evolution, h] at hc
      subst hc
      rfl

/-- C7 witness: on an empty table the 7-day window is empty and averages
to `0`; on a one-row table the 7-day window is nonempty and
average × count = sum of PR. -/
theorem recent_window_spec_witness :
    recentAvg ([] : List Row) 7 = 0
    ∧ (recentFilter [⟨toOrdinal 2021 1 1, 5, 10⟩] 7 ≠ []
        ∧ recentAvg [⟨toOrdinal 2021 1 1, 5, 10⟩] 7 *
            ((recentFilter [⟨toOrdinal 2021 1 1, 5, 10⟩] 7).length : ℚ) =
          ((recentFilter [⟨toOrdinal 2021 1 1, 5, 10⟩] 7).map Row.pr).sum) :=
  ⟨(recent_window_spec.1 [] 7 (Or.inl rfl)).1 (by decide),
   by decide,
   (recent_window_spec.1 [⟨toOrdinal 2021 1 1, 5, 10⟩] 7 (Or.inl rfl)).2 (by decide)⟩

/-- C8: the GHI colour classification bins are exact and half-open (top
bin closed below only): `< 2 → navy`, `[2, 4) → lightblue`,
`[4, 6) → orange`, `≥ 6 → brown`; in particular `1.999 → navy`,
`2.0 → lightblue`, `3.999 → lightblue`, `4.0 → orange`, `5.999 → orange`,
`6.0 → brown`. -/
theorem get_color_buckets :
    (∀ q : ℚ,
        (q < 2 → get_color (.val q) = .navy)
        ∧ (2 ≤ q → q < 4 → get_color (.val q) = .lightblue)
        ∧ (4 ≤ q → q < 6 → get_color (.val q) = .orange)
        ∧ (6 ≤ q → get_color (.val q) = .brown))
    ∧ get_color (.val (1999 / 1000)) = .navy
    ∧ get_color (.val 2) = .lightblue
    ∧ get_color (.val (3999 / 1000)) = .lightblue
    ∧ get_color (.val 4) = .orange
    ∧ get_color (.val (5999 / 1000)) = .orange
    ∧ get_color (.val 6) = .brown := by
  refine ⟨fun q => ⟨fun h => ?_, fun h1 h2 => ?_, fun h1 h2 => ?_, fun h => ?_⟩,
    ?_, ?_, ?_, ?_, ?_, ?_⟩
  · simp [get_color, fvLt, fvLe, h]
  · simp [get_color, fvLt, fvLe, h1, h2, not_lt.mpr h1]
  · have n2 : ¬q < 2 := by linarith
    have n4 : ¬q < 4 := by linarith
    simp [get_color, fvLt, fvLe, h1, h2, n2, n4]
  · have n2 : ¬q < 2 := by linarith
    have n4 : ¬q < 4 := by linarith
    have n6 : ¬q < 6 := by linarith
    simp [get_color, fvLt, fvLe, n2, n4, n6]
  all_goals norm_num [get_color, fvLt, fvLe]

/-- C8 witness: the boundary value `2.0` satisfies `2 ≤ 2 < 4` and is
classified `lightblue`. -/
theorem get_color_buckets_witness :
    (2 : ℚ) ≤ 2 ∧ (2 : ℚ) < 4 ∧ get_color (.val 2) = .lightblue :=
  ⟨le_refl 2, by norm_num,
    (get_color_buckets.1 2).2.1 (le_refl 2) (by norm_num)⟩

/-- C9 counterexample: a run whose analysis window `[2022-01-01,
2022-12-31]` contains none of the (2021-only) reconciled rows aborts with
the empty-range failure, yet the merged table *was* persisted: the CSV is
written inside `process_data`, before the analysis runs. -/
theorem abort_still_persists_csv :
    (main_run [(toOrdinal 2021 1 1, 5)] [(toOrdinal 2021 1 1, 80)]
        (toOrdinal 2022 1 1) (toOrdinal 2022 12 31)).emptyRangeAbort = true
    ∧ (main_run [(toOrdinal 2021 1 1, 5)] [(toOrdinal 2021 1 1, 80)]
        (toOrdinal 2022 1 1) (toOrdinal 2022 12 31)).csvWritten = true := by
  constructor <;> decide

/-- C9 (amended): a run that aborts with the empty-range failure writes no
chart, but the merged table has already been written by `process_data`
before the analysis, so the CSV is persisted even for aborted runs. -/
theorem abort_no_chart_csv_already_written (g p : SourceIndex) (s e : Nat)
    (h : (main_run g p s e).emptyRangeAbort = true) :
    (main_run g p s e).chartWritten = false
    ∧ (main_run g p s e).csvWritten = true := by
  revert h
  unfold main_run
  cases hm : plot_pr_evolution (process_data g p) s e <;> simp [hm]

/-- C9 witness: the amended statement at the 2021-rows / 2022-window run. -/
theorem abort_no_chart_csv_already_written_witness :
    (main_run [(toOrdinal 2021 1 1, 5)] [(toOrdinal 2021 1 1, 80)]
        (toOrdinal 2022 1 1) (toOrdinal 2022 12 31)).chartWritten = false
    ∧ (main_run [(toOrdinal 2021 1 1, 5)] [(toOrdinal 2021 1 1, 80)]
        (toOrdinal 2022 1 1) (toOrdinal 2022 12 31)).csvWritten = true :=
  abort_no_chart_csv_already_written _ _ _ _ (by decide)

/-- C10: `get_color` is total with `brown` as the catch-all: any float
cell failing all three lower-bin tests — in particular NaN, which is not
`≥ 6` either (every IEEE comparison with NaN is false) — is classified
`brown` rather than erroring or getting a separate missing-value bucket. -/
theorem get_color_total_nan_brown :
    get_color .nan = .brown
    ∧ fvLe (.val 6) .nan = false
    ∧ (∀ g : FVal,
        fvLt g (.val 2) = false →
        (fvLe (.val 2) g && fvLt g (.val 4)) = false →
        (fvLe (.val 4) g && fvLt g (.val 6)) = false →
        get_color g = .brown) := by
  refine ⟨rfl, rfl, fun g h1 h2 h3 => ?_⟩
  simp [get_color, h1, h2, h3]

/-- C10 witness: NaN fails every bin test yet is classified `brown`. -/
theorem get_color_total_nan_brown_witness :
    get_color .nan = .brown :=
  get_color_total_nan_brown.2.2 .nan rfl rfl rfl

end DataAnalysis
